import Mathlib

/-!
Shallow embedding of the `gh-issues-bot` core (src/bot.rs, src/github.rs,
src/persistence.rs, src/config.rs) and proofs about its
assignment-request lifecycle.

Modelling conventions:
* `DateTime<Utc>` timestamps are `Nat` (seconds); `chrono::Duration::hours h`
  is `h * 3600` seconds.
* `anyhow::Error` carries no information the core inspects, so fallible
  calls return `Except Unit`.
* `HashSet<u64>` is `Finset Nat`.
* External collaborators (the `GitHubClient` trait, the `Persistence`
  trait, the compiler of the `regex` crate, the RNG used to pick a comment
  template) are oracles passed in as explicit parameters, so every
  behaviour of the remote world is quantified over.
* Each comment-post attempt made by the bot is recorded in a trace of
  `PostEvent`s (the issue targeted, the in-memory `active_issue` at the
  moment of the attempt, and whether the remote call succeeded), so that
  per-cycle posting behaviour can be stated.
-/

/-- Embeds `github::Label` (src/github.rs). -/
structure Label where
  name : String
  color : String
  description : Option String
deriving DecidableEq, Repr

/-- Embeds `github::Issue` (src/github.rs).  `assignee` is
`Option<serde_json::Value>` in the source; the core only tests it with
`is_some`, so the payload is abstracted to `String` (likewise for the
`assignees` list, only tested with `is_empty`). -/
structure Issue where
  id : Nat
  number : Nat
  title : String
  html_url : String
  state : String
  created_at : Nat
  updated_at : Nat
  assignee : Option String
  assignees : List String
  labels : List Label
deriving DecidableEq, Repr

/-- Embeds `config::Repository` (src/config.rs). -/
structure Repository where
  owner : String
  repo : String
  labels : List String
  title_regex : Option String
  exclude_labels : List String
deriving DecidableEq, Repr

/-- Embeds `bot::ActiveIssue` (src/bot.rs). -/
structure ActiveIssue where
  repo_owner : String
  repo_name : String
  issue_number : Nat
  issue_url : String
  requested_at : Nat
  timeout : Nat
deriving DecidableEq, Repr

/-- Embeds `config::Config` (src/config.rs). -/
structure Config where
  auth_token : String
  user_login : String
  poll_interval_secs : Nat
  max_retries : Nat
  cooldown_hours : Nat
  comment_templates : List String
  repositories : List Repository

/-- Oracle for the `GitHubClient` trait (src/github.rs): every remote
behaviour is a value of this structure. -/
structure GitHubClient where
  get_open_issues : Repository → Except Unit (List Issue)
  comment_on_issue : String → String → Nat → String → Except Unit Unit
  get_rate_limit : Except Unit Nat

/-- Oracle for the `Persistence` trait (src/persistence.rs). -/
structure Persistence where
  save_active_issue : ActiveIssue → Except Unit Unit
  load_active_issue : Except Unit (Option ActiveIssue)
  save_processed_issues : Finset Nat → Except Unit Unit
  load_processed_issues : Except Unit (Finset Nat)

/-- The fields of `Bot` guarded by mutexes (src/bot.rs):
`active_issue : Arc<Mutex<Option<ActiveIssue>>>` and
`processed_issues : Arc<Mutex<HashSet<u64>>>`. -/
structure BotState where
  active_issue : Option ActiveIssue
  processed_issues : Finset Nat
deriving DecidableEq

/-- `Bot::new` starts with no active issue and an empty processed set. -/
def initial_state : BotState := { active_issue := none, processed_issues := ∅ }

/-- One comment-post attempt observed during a cycle: which issue was
targeted, the in-memory `active_issue` at the moment of the attempt, and
whether the remote `comment_on_issue` call succeeded. -/
structure PostEvent where
  owner : String
  repo_name : String
  issue_id : Nat
  issue_number : Nat
  active_at_post : Option ActiveIssue
  success : Bool
deriving DecidableEq, Repr

/-- Number of successful comment posts in a trace. -/
def successCount (tr : List PostEvent) : Nat :=
  (tr.filter (fun e => e.success)).length

/-- `issue.labels.iter().map(|l| l.name.clone()).collect()` (src/github.rs). -/
def issue_label_names (issue : Issue) : List String :=
  issue.labels.map Label.name

/-- The filter closure of `OctocrabClient::get_open_issues`
(src/github.rs lines 106-145).  `compile` is the oracle for
`regex::Regex::new`: `none` models a pattern that fails to compile,
`some m` a compiled regex whose `is_match` is `m`. -/
def issue_passes_filter (compile : String → Option (String → Bool))
    (repo : Repository) (issue : Issue) : Bool :=
  if issue.assignee.isSome || !issue.assignees.isEmpty then
    false
  else if !repo.labels.isEmpty &&
      repo.labels.any (fun required => !(issue_label_names issue).contains required) then
    false
  else if !repo.exclude_labels.isEmpty &&
      repo.exclude_labels.any (fun ex => (issue_label_names issue).contains ex) then
    false
  else
    match repo.title_regex with
    | some regex_str =>
        match compile regex_str with
        | some re_match => re_match issue.title
        | none => true
    | none => true

/-- `OctocrabClient::get_open_issues` (src/github.rs): the HTTP fetch is
the oracle `response`; on success the fetched issues are filtered. -/
def octocrab_get_open_issues (compile : String → Option (String → Bool))
    (response : Except Unit (List Issue)) (repo : Repository) :
    Except Unit (List Issue) :=
  match response with
  | .error e => .error e
  | .ok issues => .ok (issues.filter (issue_passes_filter compile repo))

/-- `chrono::Duration::hours`, in seconds. -/
def duration_hours (h : Nat) : Nat := h * 3600

/-- `self.config.comment_templates.choose(&mut rng)` (src/bot.rs):
`SliceRandom::choose` returns `None` exactly on an empty slice, else some
element; the RNG is the oracle index `pick`. -/
def choose_template (pick : Nat) (templates : List String) : Option String :=
  templates.get? (pick % templates.length)

/-- `Bot::request_assignment` (src/bot.rs lines 177-194). -/
def request_assignment (G : GitHubClient) (cfg : Config) (pick : Nat)
    (owner repo : String) (issue : Issue) : Except Unit Unit :=
  let comment :=
    match choose_template pick cfg.comment_templates with
    | some template => template
    | none => "Hi, I would like to work on this issue!"
  G.comment_on_issue owner repo issue.number comment

/-- The `ActiveIssue` value built by `Bot::mark_issue_as_active`. -/
def active_of (cfg : Config) (now : Nat) (owner repo : String)
    (issue : Issue) : ActiveIssue :=
  { repo_owner := owner
    repo_name := repo
    issue_number := issue.number
    issue_url := issue.html_url
    requested_at := now
    timeout := now + duration_hours cfg.cooldown_hours }

/-- `Bot::mark_issue_as_active` (src/bot.rs lines 196-233): sets the
in-memory `active_issue`, inserts the id into the in-memory
`processed_issues`, then persists both; a persistence error propagates
(`?`) after the in-memory mutation already happened. -/
def mark_issue_as_active (P : Persistence) (cfg : Config) (now : Nat)
    (owner repo : String) (issue : Issue) (s : BotState) :
    BotState × Except Unit Unit :=
  let active := active_of cfg now owner repo issue
  let s2 : BotState :=
    { active_issue := some active
      processed_issues := insert issue.id s.processed_issues }
  match P.save_active_issue active with
  | .error e => (s2, .error e)
  | .ok _ =>
      match P.save_processed_issues s2.processed_issues with
      | .error e => (s2, .error e)
      | .ok _ => (s2, .ok ())

/-- The `for issue in sorted_issues` loop of `Bot::process_repository`
(src/bot.rs lines 153-172).  `processed` is the snapshot of the processed
set taken before the loop.  A failed post logs and `continue`s to the next
issue; after a successful post, a failure of `mark_issue_as_active`
propagates (`?`), otherwise the loop returns `Ok(true)`. -/
def try_issues (G : GitHubClient) (P : Persistence) (cfg : Config)
    (pick now : Nat) (owner repo_name : String) (processed : Finset Nat) :
    List Issue → BotState → BotState × List PostEvent × Except Unit Bool
  | [], s => (s, [], .ok false)
  | issue :: rest, s =>
    if issue.id ∈ processed then
      try_issues G P cfg pick now owner repo_name processed rest s
    else
      match request_assignment G cfg pick owner repo_name issue with
      | .error _ =>
          let e : PostEvent :=
            { owner := owner, repo_name := repo_name, issue_id := issue.id
              issue_number := issue.number, active_at_post := s.active_issue
              success := false }
          let r := try_issues G P cfg pick now owner repo_name processed rest s
          (r.1, e :: r.2.1, r.2.2)
      | .ok _ =>
          let e : PostEvent :=
            { owner := owner, repo_name := repo_name, issue_id := issue.id
              issue_number := issue.number, active_at_post := s.active_issue
              success := true }
          let m := mark_issue_as_active P cfg now owner repo_name issue s
          match m.2 with
          | .error err => (m.1, [e], .error err)
          | .ok _ => (m.1, [e], .ok true)

/-- The comparator `|a, b| a.created_at.cmp(&b.created_at)` of
src/bot.rs line 144, as the order it sorts by. -/
def created_le (a b : Issue) : Prop := a.created_at ≤ b.created_at

instance : DecidableRel created_le :=
  fun a b => Nat.decLe a.created_at b.created_at

instance : IsTotal Issue created_le := ⟨fun a b => Nat.le_total _ _⟩

instance : IsTrans Issue created_le := ⟨fun _ _ _ => Nat.le_trans⟩

/-- `sorted_issues.sort_by(|a, b| a.created_at.cmp(&b.created_at))`
(src/bot.rs line 144): a stable sort on creation time. -/
def sort_issues (issues : List Issue) : List Issue :=
  issues.insertionSort created_le

/-- `Bot::process_repository` (src/bot.rs lines 136-175). -/
def process_repository (G : GitHubClient) (P : Persistence) (cfg : Config)
    (pick now : Nat) (repo : Repository) (s : BotState) :
    BotState × List PostEvent × Except Unit Bool :=
  match G.get_open_issues repo with
  | .error e => (s, [], .error e)
  | .ok issues =>
      try_issues G P cfg pick now repo.owner repo.repo s.processed_issues
        (sort_issues issues) s

/-- The `for repo in &self.config.repositories` loop of
`Bot::poll_repositories` (src/bot.rs lines 113-130): `Ok(true)` ends the
cycle, `Ok(false)` and `Err` both continue with the next repository. -/
def scan_repositories (G : GitHubClient) (P : Persistence) (cfg : Config)
    (pick now : Nat) : List Repository → BotState → BotState × List PostEvent
  | [], s => (s, [])
  | repo :: rest, s =>
    let p := process_repository G P cfg pick now repo s
    match p.2.2 with
    | .ok true => (p.1, p.2.1)
    | .ok false =>
        let r := scan_repositories G P cfg pick now rest p.1
        (r.1, p.2.1 ++ r.2)
    | .error _ =>
        let r := scan_repositories G P cfg pick now rest p.1
        (r.1, p.2.1 ++ r.2)

/-- The rate-limit check and repository scan of `Bot::poll_repositories`
(src/bot.rs lines 100-133), reached once the active-issue wait check has
passed. -/
def scan_phase (G : GitHubClient) (P : Persistence) (cfg : Config)
    (pick now : Nat) (s : BotState) :
    BotState × List PostEvent × Except Unit Unit :=
  match G.get_rate_limit with
  | .error e => (s, [], .error e)
  | .ok remaining =>
      if remaining < 50 then (s, [], .ok ())
      else
        let r := scan_repositories G P cfg pick now cfg.repositories s
        (r.1, r.2, .ok ())

/-- `Bot::poll_repositories` (src/bot.rs lines 78-134): one decision
cycle.  If an active issue exists and `now < timeout` the cycle is a
no-op; otherwise (expired, only a log line is emitted — `active_issue` is
not modified) the cycle proceeds to the rate-limit check and the scan. -/
def poll_repositories (G : GitHubClient) (P : Persistence) (cfg : Config)
    (pick now : Nat) (s : BotState) :
    BotState × List PostEvent × Except Unit Unit :=
  match s.active_issue with
  | some active =>
      if now < active.timeout then (s, [], .ok ())
      else scan_phase G P cfg pick now s
  | none => scan_phase G P cfg pick now s

/-- `Bot::initialize` (src/bot.rs lines 44-57): each load result is
applied only on `Ok` (`if let Ok(..)`), and the function always returns
`Ok(())`. -/
def bot_init (P : Persistence) (s : BotState) : BotState × Except Unit Unit :=
  let s1 : BotState :=
    match P.load_active_issue with
    | .ok active => { s with active_issue := active }
    | .error _ => s
  let s2 : BotState :=
    match P.load_processed_issues with
    | .ok processed => { s1 with processed_issues := processed }
    | .error _ => s1
  (s2, .ok ())

/-- Input varying from one cycle to the next: the remote world, the RNG
pick and the clock. -/
structure CycleEnv where
  github : GitHubClient
  pick : Nat
  now : Nat

/-- A sequence of decision cycles (successive iterations of the loop in
`Bot::start`, src/bot.rs lines 65-75), accumulating the post trace. -/
def run_cycles (P : Persistence) (cfg : Config) :
    List CycleEnv → BotState → BotState × List PostEvent
  | [], s => (s, [])
  | env :: rest, s =>
    let r := poll_repositories env.github P cfg env.pick env.now s
    let r2 := run_cycles P cfg rest r.1
    (r2.1, r.2.1 ++ r2.2)

/-- Content of a state file, as `FilePersistence` reads it back: the
serde-JSON serialisation of a value round-trips to that value, so a
well-formed file is modelled by the value it encodes; `malformed` models
a file `serde_json::from_str` rejects. -/
inductive FileContent where
  | active_issue_json (a : ActiveIssue)
  | processed_issues_json (t : Finset Nat)
  | malformed
deriving DecidableEq

/-- The data directory of `FilePersistence` (src/persistence.rs):
`active_issue.json` and `processed_issues.json`, each possibly absent. -/
structure DataDir where
  active_issue_file : Option FileContent
  processed_issues_file : Option FileContent
deriving DecidableEq

/-- A fresh data directory: neither state file exists. -/
def empty_data_dir : DataDir :=
  { active_issue_file := none, processed_issues_file := none }

/-- `FilePersistence::save_active_issue` (src/persistence.rs lines 44-53):
serialise and overwrite the file. -/
def fp_save_active_issue (a : ActiveIssue) (d : DataDir) : DataDir :=
  { d with active_issue_file := some (.active_issue_json a) }

/-- `FilePersistence::load_active_issue` (src/persistence.rs lines 55-70):
no file means `Ok(None)`; a file that parses as an `ActiveIssue` is
returned, anything else is a parse error. -/
def fp_load_active_issue (d : DataDir) : Except Unit (Option ActiveIssue) :=
  match d.active_issue_file with
  | none => .ok none
  | some (.active_issue_json a) => .ok (some a)
  | some _ => .error ()

/-- `FilePersistence::save_processed_issues` (src/persistence.rs lines
72-81). -/
def fp_save_processed_issues (t : Finset Nat) (d : DataDir) : DataDir :=
  { d with processed_issues_file := some (.processed_issues_json t) }

/-- `FilePersistence::load_processed_issues` (src/persistence.rs lines
83-98): no file means an empty set. -/
def fp_load_processed_issues (d : DataDir) : Except Unit (Finset Nat) :=
  match d.processed_issues_file with
  | none => .ok ∅
  | some (.processed_issues_json t) => .ok t
  | some _ => .error ()

/-! ### Concrete sample worlds used to instantiate the theorems -/

/-- An open, unassigned, unlabelled issue created at time 0. -/
def cx_issue1 : Issue :=
  { id := 1, number := 1, title := "a", html_url := "u1", state := "open"
    created_at := 0, updated_at := 0, assignee := none, assignees := []
    labels := [] }

/-- An open, unassigned, unlabelled issue created at time 1. -/
def cx_issue2 : Issue :=
  { id := 2, number := 2, title := "b", html_url := "u2", state := "open"
    created_at := 1, updated_at := 0, assignee := none, assignees := []
    labels := [] }

/-- An open, unassigned, unlabelled issue created at time 2. -/
def cx_issue3 : Issue :=
  { id := 3, number := 3, title := "c", html_url := "u3", state := "open"
    created_at := 2, updated_at := 0, assignee := none, assignees := []
    labels := [] }

def repo1 : Repository :=
  { owner := "o", repo := "r1", labels := [], title_regex := none
    exclude_labels := [] }

def repo2 : Repository :=
  { owner := "o", repo := "r2", labels := [], title_regex := none
    exclude_labels := [] }

/-- A configuration with the given repository list, default intervals and
no comment templates. -/
def base_config (repos : List Repository) : Config :=
  { auth_token := "t", user_login := "me", poll_interval_secs := 45
    max_retries := 3, cooldown_hours := 24, comment_templates := []
    repositories := repos }

/-- Persistence whose saves and loads all succeed. -/
def ok_persistence : Persistence :=
  { save_active_issue := fun _ => .ok ()
    load_active_issue := .ok none
    save_processed_issues := fun _ => .ok ()
    load_processed_issues := .ok ∅ }

/-- Persistence whose `save_active_issue` always fails. -/
def fail_save_persistence : Persistence :=
  { save_active_issue := fun _ => .error ()
    load_active_issue := .ok none
    save_processed_issues := fun _ => .ok ()
    load_processed_issues := .ok ∅ }

/-- Persistence whose loads fail (e.g. unreadable state files). -/
def err_load_persistence : Persistence :=
  { save_active_issue := fun _ => .ok ()
    load_active_issue := .error ()
    save_processed_issues := fun _ => .ok ()
    load_processed_issues := .error () }

/-- A remote with no open issues anywhere and ample rate limit. -/
def empty_github : GitHubClient :=
  { get_open_issues := fun _ => .ok []
    comment_on_issue := fun _ _ _ _ => .ok ()
    get_rate_limit := .ok 100 }

/-- A remote with one issue in each of `repo1` and `repo2`. -/
def two_repo_github : GitHubClient :=
  { get_open_issues := fun r =>
      .ok (if r.repo = "r1" then [cx_issue1] else [cx_issue2])
    comment_on_issue := fun _ _ _ _ => .ok ()
    get_rate_limit := .ok 100 }

/-- A remote returning three issues for every repository. -/
def three_issue_github : GitHubClient :=
  { get_open_issues := fun _ => .ok [cx_issue1, cx_issue2, cx_issue3]
    comment_on_issue := fun _ _ _ _ => .ok ()
    get_rate_limit := .ok 100 }

/-- A remote with two issues where commenting on issue number 1 fails and
on any other issue succeeds. -/
def flaky_comment_github : GitHubClient :=
  { get_open_issues := fun _ => .ok [cx_issue1, cx_issue2]
    comment_on_issue := fun _ _ n _ => if n = 1 then .error () else .ok ()
    get_rate_limit := .ok 100 }

/-- A remote whose issue listing always fails. -/
def list_fail_github : GitHubClient :=
  { get_open_issues := fun _ => .error ()
    comment_on_issue := fun _ _ _ _ => .ok ()
    get_rate_limit := .ok 100 }

/-- An `ActiveIssue` whose request expired at time 10. -/
def expired_active : ActiveIssue :=
  { repo_owner := "o", repo_name := "r1", issue_number := 5, issue_url := "u5"
    requested_at := 0, timeout := 10 }

/-- A repository rule requiring the label "help wanted" and excluding the
label "blocked". -/
def label_repo : Repository :=
  { owner := "o", repo := "r4", labels := ["help wanted"]
    title_regex := none, exclude_labels := ["blocked"] }

/-- A repository rule with the malformed title pattern "(". -/
def regex_repo : Repository :=
  { owner := "o", repo := "r5", labels := [], title_regex := some "("
    exclude_labels := [] }

/-- An unassigned issue carrying exactly the label "help wanted". -/
def labeled_issue : Issue :=
  { id := 4, number := 4, title := "d", html_url := "u4", state := "open"
    created_at := 0, updated_at := 0, assignee := none, assignees := []
    labels := [{ name := "help wanted", color := "fff", description := none }] }

/-- A remote returning the three sample issues out of creation order. -/
def shuffled_github : GitHubClient :=
  { get_open_issues := fun _ => .ok [cx_issue2, cx_issue3, cx_issue1]
    comment_on_issue := fun _ _ _ _ => .ok ()
    get_rate_limit := .ok 100 }

/-! ### Helper lemmas about one repository scan -/

theorem mark_issue_as_active_fst (P : Persistence) (cfg : Config) (now : Nat)
    (owner repo : String) (issue : Issue) (s : BotState) :
    (mark_issue_as_active P cfg now owner repo issue s).1 =
      { active_issue := some (active_of cfg now owner repo issue)
        processed_issues := insert issue.id s.processed_issues } := by
  unfold mark_issue_as_active
  dsimp only
  split
  · rfl
  · split
    · rfl
    · rfl

theorem mark_issue_as_active_saves_ok (P : Persistence) (cfg : Config) (now : Nat)
    (owner repo : String) (issue : Issue) (s : BotState)
    (hA : ∀ a, P.save_active_issue a = .ok ())
    (hT : ∀ t, P.save_processed_issues t = .ok ()) :
    mark_issue_as_active P cfg now owner repo issue s =
      ({ active_issue := some (active_of cfg now owner repo issue)
         processed_issues := insert issue.id s.processed_issues }, .ok ()) := by
  unfold mark_issue_as_active
  simp only [hA, hT]

theorem successCount_append (a b : List PostEvent) :
    successCount (a ++ b) = successCount a + successCount b := by
  simp [successCount, List.filter_append]

section TryIssues

variable (G : GitHubClient) (P : Persistence) (cfg : Config) (pick now : Nat)
variable (owner rn : String) (processed : Finset Nat)

theorem try_issues_mono :
    ∀ (l : List Issue) (s : BotState),
      s.processed_issues ⊆
        (try_issues G P cfg pick now owner rn processed l s).1.processed_issues := by
  intro l
  induction l with
  | nil => intro s; exact Finset.Subset.refl _
  | cons issue rest ih =>
    intro s
    rw [try_issues]
    dsimp only
    split
    · exact ih s
    · split
      · exact ih s
      · split
        · rw [mark_issue_as_active_fst]
          exact Finset.subset_insert _ _
        · rw [mark_issue_as_active_fst]
          exact Finset.subset_insert _ _

theorem try_issues_events_active :
    ∀ (l : List Issue) (s : BotState),
      ∀ e ∈ (try_issues G P cfg pick now owner rn processed l s).2.1,
        e.active_at_post = s.active_issue := by
  intro l
  induction l with
  | nil => intro s e he; simp [try_issues] at he
  | cons issue rest ih =>
    intro s e he
    rw [try_issues] at he
    dsimp only at he
    split at he
    · exact ih s e he
    · split at he
      · rcases (List.mem_cons).1 he with h | h
        · subst h; rfl
        · exact ih s e h
      · split at he <;>
        · rcases (List.mem_cons).1 he with h | h
          · subst h; rfl
          · simp at h

theorem try_issues_events_not_processed :
    ∀ (l : List Issue) (s : BotState),
      ∀ e ∈ (try_issues G P cfg pick now owner rn processed l s).2.1,
        e.issue_id ∉ processed := by
  intro l
  induction l with
  | nil => intro s e he; simp [try_issues] at he
  | cons issue rest ih =>
    intro s e he
    rw [try_issues] at he
    dsimp only at he
    split at he
    · exact ih s e he
    · next hmem =>
      split at he
      · rcases (List.mem_cons).1 he with h | h
        · subst h; exact hmem
        · exact ih s e h
      · split at he <;>
        · rcases (List.mem_cons).1 he with h | h
          · subst h; exact hmem
          · simp at h

theorem try_issues_successCount_le_one :
    ∀ (l : List Issue) (s : BotState),
      successCount (try_issues G P cfg pick now owner rn processed l s).2.1 ≤ 1 := by
  intro l
  induction l with
  | nil => intro s; simp [try_issues, successCount]
  | cons issue rest ih =>
    intro s
    rw [try_issues]
    dsimp only
    split
    · exact ih s
    · split
      · simpa [successCount, List.filter_cons] using ih s
      · split <;> simp [successCount, List.filter_cons]

theorem try_issues_ok_false :
    ∀ (l : List Issue) (s : BotState),
      (try_issues G P cfg pick now owner rn processed l s).2.2 = .ok false →
        (try_issues G P cfg pick now owner rn processed l s).1 = s ∧
        successCount (try_issues G P cfg pick now owner rn processed l s).2.1 = 0 := by
  intro l
  induction l with
  | nil => intro s _; exact ⟨rfl, by simp [try_issues, successCount]⟩
  | cons issue rest ih =>
    intro s hres
    rw [try_issues] at hres ⊢
    dsimp only at hres ⊢
    split
    · next h =>
      rw [if_pos h] at hres
      exact ih s hres
    · next h =>
      rw [if_neg h] at hres
      split
      · next u hreq =>
        rw [hreq] at hres
        dsimp only at hres ⊢
        refine ⟨(ih s hres).1, ?_⟩
        simpa [successCount, List.filter_cons] using (ih s hres).2
      · next u hreq =>
        rw [hreq] at hres
        dsimp only at hres
        split at hres
        · simp at hres
        · simp at hres

theorem try_issues_no_error_of_saves_ok
    (hA : ∀ a, P.save_active_issue a = .ok ())
    (hT : ∀ t, P.save_processed_issues t = .ok ()) :
    ∀ (l : List Issue) (s : BotState),
      (try_issues G P cfg pick now owner rn processed l s).2.2 = .ok true ∨
      (try_issues G P cfg pick now owner rn processed l s).2.2 = .ok false := by
  intro l
  induction l with
  | nil => intro s; exact Or.inr rfl
  | cons issue rest ih =>
    intro s
    rw [try_issues]
    dsimp only
    split
    · exact ih s
    · split
      · exact ih s
      · rw [mark_issue_as_active_saves_ok P cfg now owner rn issue s hA hT]
        exact Or.inl rfl

theorem try_issues_active_or_success :
    ∀ (l : List Issue) (s : BotState),
      (try_issues G P cfg pick now owner rn processed l s).1.active_issue =
          s.active_issue ∨
      ∃ e ∈ (try_issues G P cfg pick now owner rn processed l s).2.1,
        e.success = true := by
  intro l
  induction l with
  | nil => intro s; exact Or.inl rfl
  | cons issue rest ih =>
    intro s
    rw [try_issues]
    dsimp only
    split
    · exact ih s
    · split
      · rcases ih s with h | ⟨e, he, hs⟩
        · exact Or.inl h
        · exact Or.inr ⟨e, List.mem_cons_of_mem _ he, hs⟩
      · split
        · exact Or.inr ⟨_, List.mem_cons_self _ _, rfl⟩
        · exact Or.inr ⟨_, List.mem_cons_self _ _, rfl⟩

theorem try_issues_trace_sublist :
    ∀ (l : List Issue) (s : BotState),
      List.Sublist
        ((try_issues G P cfg pick now owner rn processed l s).2.1.map
          (fun e => e.issue_id))
        (l.map Issue.id) := by
  intro l
  induction l with
  | nil => intro s; simp [try_issues]
  | cons issue rest ih =>
    intro s
    rw [try_issues]
    dsimp only
    split
    · exact List.Sublist.cons _ (ih s)
    · split
      · exact List.Sublist.cons₂ _ (ih s)
      · split
        · exact List.Sublist.cons₂ _ (List.nil_sublist _)
        · exact List.Sublist.cons₂ _ (List.nil_sublist _)

theorem try_issues_processed_subset :
    ∀ (l : List Issue) (s : BotState) (i : Nat),
      i ∈ (try_issues G P cfg pick now owner rn processed l s).1.processed_issues →
        i ∈ s.processed_issues ∨
        ∃ e ∈ (try_issues G P cfg pick now owner rn processed l s).2.1,
          e.issue_id = i ∧ e.success = true := by
  intro l
  induction l with
  | nil => intro s i hi; exact Or.inl hi
  | cons issue rest ih =>
    intro s i hi
    rw [try_issues] at hi ⊢
    dsimp only at hi ⊢
    split
    · next h =>
      rw [if_pos h] at hi
      exact ih s i hi
    · next h =>
      rw [if_neg h] at hi
      split
      · next u hreq =>
        rw [hreq] at hi
        dsimp only at hi ⊢
        rcases ih s i hi with hmem | ⟨e, he, hid, hs⟩
        · exact Or.inl hmem
        · exact Or.inr ⟨e, List.mem_cons_of_mem _ he, hid, hs⟩
      · next u hreq =>
        rw [hreq] at hi
        dsimp only at hi ⊢
        split <;>
        · next heq =>
          rw [heq] at hi
          dsimp only at hi
          rw [mark_issue_as_active_fst] at hi
          rcases Finset.mem_insert.1 hi with hid | hmem
          · exact Or.inr ⟨_, List.mem_cons_self _ _, hid.symm, rfl⟩
          · exact Or.inl hmem

end TryIssues

section ScanLemmas

variable (G : GitHubClient) (P : Persistence) (cfg : Config) (pick now : Nat)

theorem process_repository_mono (repo : Repository) (s : BotState) :
    s.processed_issues ⊆
      (process_repository G P cfg pick now repo s).1.processed_issues := by
  unfold process_repository
  split
  · exact Finset.Subset.refl _
  · exact try_issues_mono G P cfg pick now repo.owner repo.repo
      s.processed_issues _ s

theorem process_repository_events_active (repo : Repository) (s : BotState) :
    ∀ e ∈ (process_repository G P cfg pick now repo s).2.1,
      e.active_at_post = s.active_issue := by
  unfold process_repository
  split
  · intro e he; simp at he
  · exact try_issues_events_active G P cfg pick now repo.owner repo.repo
      s.processed_issues _ s

theorem process_repository_events_not_processed (repo : Repository) (s : BotState) :
    ∀ e ∈ (process_repository G P cfg pick now repo s).2.1,
      e.issue_id ∉ s.processed_issues := by
  unfold process_repository
  split
  · intro e he; simp at he
  · exact try_issues_events_not_processed G P cfg pick now repo.owner repo.repo
      s.processed_issues _ s

theorem process_repository_successCount_le_one (repo : Repository) (s : BotState) :
    successCount (process_repository G P cfg pick now repo s).2.1 ≤ 1 := by
  unfold process_repository
  split
  · simp [successCount]
  · exact try_issues_successCount_le_one G P cfg pick now repo.owner repo.repo
      s.processed_issues _ s

theorem process_repository_ok_false (repo : Repository) (s : BotState)
    (hres : (process_repository G P cfg pick now repo s).2.2 = .ok false) :
    (process_repository G P cfg pick now repo s).1 = s ∧
    successCount (process_repository G P cfg pick now repo s).2.1 = 0 := by
  unfold process_repository at hres ⊢
  split at hres
  · exact ⟨rfl, by simp [successCount]⟩
  · exact try_issues_ok_false G P cfg pick now repo.owner repo.repo
      s.processed_issues _ s hres

theorem process_repository_error_saves_ok (repo : Repository) (s : BotState)
    (hA : ∀ a, P.save_active_issue a = .ok ())
    (hT : ∀ t, P.save_processed_issues t = .ok ())
    (u : Unit)
    (hres : (process_repository G P cfg pick now repo s).2.2 = .error u) :
    (process_repository G P cfg pick now repo s).1 = s ∧
    (process_repository G P cfg pick now repo s).2.1 = [] := by
  unfold process_repository at hres ⊢
  split at hres
  · exact ⟨rfl, rfl⟩
  · rcases try_issues_no_error_of_saves_ok G P cfg pick now repo.owner repo.repo
      s.processed_issues hA hT _ s with h | h <;> rw [h] at hres <;> simp at hres

theorem process_repository_active_or_success (repo : Repository) (s : BotState) :
    (process_repository G P cfg pick now repo s).1.active_issue = s.active_issue ∨
    ∃ e ∈ (process_repository G P cfg pick now repo s).2.1, e.success = true := by
  unfold process_repository
  split
  · exact Or.inl rfl
  · exact try_issues_active_or_success G P cfg pick now repo.owner repo.repo
      s.processed_issues _ s

theorem process_repository_processed_subset (repo : Repository) (s : BotState)
    (i : Nat)
    (hi : i ∈ (process_repository G P cfg pick now repo s).1.processed_issues) :
    i ∈ s.processed_issues ∨
    ∃ e ∈ (process_repository G P cfg pick now repo s).2.1,
      e.issue_id = i ∧ e.success = true := by
  unfold process_repository at hi ⊢
  split at hi
  · exact Or.inl hi
  · exact try_issues_processed_subset G P cfg pick now repo.owner repo.repo
      s.processed_issues _ s i hi

theorem scan_repositories_mono :
    ∀ (repos : List Repository) (s : BotState),
      s.processed_issues ⊆
        (scan_repositories G P cfg pick now repos s).1.processed_issues := by
  intro repos
  induction repos with
  | nil => intro s; exact Finset.Subset.refl _
  | cons repo rest ih =>
    intro s
    rw [scan_repositories]
    dsimp only
    split
    · exact process_repository_mono G P cfg pick now repo s
    · exact (process_repository_mono G P cfg pick now repo s).trans (ih _)
    · exact (process_repository_mono G P cfg pick now repo s).trans (ih _)

theorem scan_repositories_events_not_processed :
    ∀ (repos : List Repository) (s : BotState),
      ∀ e ∈ (scan_repositories G P cfg pick now repos s).2,
        e.issue_id ∉ s.processed_issues := by
  intro repos
  induction repos with
  | nil => intro s e he; simp [scan_repositories] at he
  | cons repo rest ih =>
    intro s e he
    rw [scan_repositories] at he
    dsimp only at he
    split at he
    · exact process_repository_events_not_processed G P cfg pick now repo s e he
    · rcases List.mem_append.1 he with h | h
      · exact process_repository_events_not_processed G P cfg pick now repo s e h
      · intro hmem
        exact ih _ e h (process_repository_mono G P cfg pick now repo s hmem)
    · rcases List.mem_append.1 he with h | h
      · exact process_repository_events_not_processed G P cfg pick now repo s e h
      · intro hmem
        exact ih _ e h (process_repository_mono G P cfg pick now repo s hmem)

theorem scan_repositories_active_or_success :
    ∀ (repos : List Repository) (s : BotState),
      (scan_repositories G P cfg pick now repos s).1.active_issue =
          s.active_issue ∨
      ∃ e ∈ (scan_repositories G P cfg pick now repos s).2, e.success = true := by
  intro repos
  induction repos with
  | nil => intro s; exact Or.inl rfl
  | cons repo rest ih =>
    intro s
    rw [scan_repositories]
    dsimp only
    split
    · exact process_repository_active_or_success G P cfg pick now repo s
    · rcases process_repository_active_or_success G P cfg pick now repo s with
        hp | ⟨e, he, hs⟩
      · rcases ih ((process_repository G P cfg pick now repo s).1) with
          hr | ⟨e, he, hs⟩
        · exact Or.inl (hr.trans hp)
        · exact Or.inr ⟨e, List.mem_append_right _ he, hs⟩
      · exact Or.inr ⟨e, List.mem_append_left _ he, hs⟩
    · rcases process_repository_active_or_success G P cfg pick now repo s with
        hp | ⟨e, he, hs⟩
      · rcases ih ((process_repository G P cfg pick now repo s).1) with
          hr | ⟨e, he, hs⟩
        · exact Or.inl (hr.trans hp)
        · exact Or.inr ⟨e, List.mem_append_right _ he, hs⟩
      · exact Or.inr ⟨e, List.mem_append_left _ he, hs⟩

theorem scan_repositories_saves_ok
    (hA : ∀ a, P.save_active_issue a = .ok ())
    (hT : ∀ t, P.save_processed_issues t = .ok ()) :
    ∀ (repos : List Repository) (s : BotState),
      successCount (scan_repositories G P cfg pick now repos s).2 ≤ 1 ∧
      ∀ e ∈ (scan_repositories G P cfg pick now repos s).2,
        e.active_at_post = s.active_issue := by
  intro repos
  induction repos with
  | nil => intro s; exact ⟨by simp [scan_repositories, successCount], by
      intro e he; simp [scan_repositories] at he⟩
  | cons repo rest ih =>
    intro s
    rw [scan_repositories]
    dsimp only
    split
    · exact ⟨process_repository_successCount_le_one G P cfg pick now repo s,
        process_repository_events_active G P cfg pick now repo s⟩
    · next hres =>
      have hof := process_repository_ok_false G P cfg pick now repo s hres
      constructor
      · rw [successCount_append, hof.2]
        simpa using (ih _).1
      · intro e he
        rcases List.mem_append.1 he with h | h
        · exact process_repository_events_active G P cfg pick now repo s e h
        · rw [hof.1] at h
          exact (ih s).2 e h
    · next u hres =>
      have hof := process_repository_error_saves_ok G P cfg pick now repo s hA hT
        u hres
      constructor
      · rw [successCount_append, hof.2]
        simpa [successCount] using (ih _).1
      · intro e he
        rcases List.mem_append.1 he with h | h
        · exact process_repository_events_active G P cfg pick now repo s e h
        · rw [hof.1] at h
          exact (ih s).2 e h

end ScanLemmas

section PollLemmas

variable (G : GitHubClient) (P : Persistence) (cfg : Config) (pick now : Nat)

theorem scan_phase_mono (s : BotState) :
    s.processed_issues ⊆ (scan_phase G P cfg pick now s).1.processed_issues := by
  unfold scan_phase
  split
  · exact Finset.Subset.refl _
  · split
    · exact Finset.Subset.refl _
    · exact scan_repositories_mono G P cfg pick now cfg.repositories s

theorem scan_phase_events_not_processed (s : BotState) :
    ∀ e ∈ (scan_phase G P cfg pick now s).2.1,
      e.issue_id ∉ s.processed_issues := by
  unfold scan_phase
  split
  · intro e he; simp at he
  · split
    · intro e he; simp at he
    · exact scan_repositories_events_not_processed G P cfg pick now
        cfg.repositories s

theorem scan_phase_active_or_success (s : BotState) :
    (scan_phase G P cfg pick now s).1.active_issue = s.active_issue ∨
    ∃ e ∈ (scan_phase G P cfg pick now s).2.1, e.success = true := by
  unfold scan_phase
  split
  · exact Or.inl rfl
  · split
    · exact Or.inl rfl
    · exact scan_repositories_active_or_success G P cfg pick now
        cfg.repositories s

theorem scan_phase_saves_ok (s : BotState)
    (hA : ∀ a, P.save_active_issue a = .ok ())
    (hT : ∀ t, P.save_processed_issues t = .ok ()) :
    successCount (scan_phase G P cfg pick now s).2.1 ≤ 1 ∧
    ∀ e ∈ (scan_phase G P cfg pick now s).2.1,
      e.active_at_post = s.active_issue := by
  unfold scan_phase
  split
  · exact ⟨by simp [successCount], by intro e he; simp at he⟩
  · split
    · exact ⟨by simp [successCount], by intro e he; simp at he⟩
    · exact scan_repositories_saves_ok G P cfg pick now hA hT cfg.repositories s

theorem poll_repositories_eq_scan_phase (s : BotState) (a : ActiveIssue)
    (hs : s.active_issue = some a) (hexp : a.timeout ≤ now) :
    poll_repositories G P cfg pick now s = scan_phase G P cfg pick now s := by
  unfold poll_repositories
  rw [hs]
  dsimp only
  rw [if_neg (by omega)]

theorem poll_repositories_mono (s : BotState) :
    s.processed_issues ⊆
      (poll_repositories G P cfg pick now s).1.processed_issues := by
  unfold poll_repositories
  split
  · split
    · exact Finset.Subset.refl _
    · exact scan_phase_mono G P cfg pick now s
  · exact scan_phase_mono G P cfg pick now s

theorem poll_repositories_events_not_processed (s : BotState) :
    ∀ e ∈ (poll_repositories G P cfg pick now s).2.1,
      e.issue_id ∉ s.processed_issues := by
  unfold poll_repositories
  split
  · split
    · intro e he; simp at he
    · exact scan_phase_events_not_processed G P cfg pick now s
  · exact scan_phase_events_not_processed G P cfg pick now s

theorem poll_repositories_active_or_success (s : BotState) :
    (poll_repositories G P cfg pick now s).1.active_issue = s.active_issue ∨
    ∃ e ∈ (poll_repositories G P cfg pick now s).2.1, e.success = true := by
  unfold poll_repositories
  split
  · split
    · exact Or.inl rfl
    · exact scan_phase_active_or_success G P cfg pick now s
  · exact scan_phase_active_or_success G P cfg pick now s

theorem run_cycles_mono (P1 : Persistence) (cfg1 : Config) :
    ∀ (envs : List CycleEnv) (s : BotState),
      s.processed_issues ⊆ (run_cycles P1 cfg1 envs s).1.processed_issues := by
  intro envs
  induction envs with
  | nil => intro s; exact Finset.Subset.refl _
  | cons env rest ih =>
    intro s
    rw [run_cycles]
    exact (poll_repositories_mono env.github P1 cfg1 env.pick env.now s).trans
      (ih _)

theorem run_cycles_events_not_processed (P1 : Persistence) (cfg1 : Config) :
    ∀ (envs : List CycleEnv) (s : BotState),
      ∀ e ∈ (run_cycles P1 cfg1 envs s).2, e.issue_id ∉ s.processed_issues := by
  intro envs
  induction envs with
  | nil => intro s e he; simp [run_cycles] at he
  | cons env rest ih =>
    intro s e he
    rw [run_cycles] at he
    dsimp only at he
    rcases List.mem_append.1 he with h | h
    · exact poll_repositories_events_not_processed env.github P1 cfg1 env.pick
        env.now s e h
    · intro hmem
      exact ih _ e h
        (poll_repositories_mono env.github P1 cfg1 env.pick env.now s hmem)

end PollLemmas

/-! ### Claim theorems -/

/-- C1 (counterexample): a cycle that starts with `ActiveRequest =
Some expired_active` and observes `now = 10 ≥ expiry = 10` completes a
full scan (finding no issue) and ends with `ActiveRequest` still equal to
the stale `Some expired_active` — the code never sets it to `None`,
contradicting the claim that such a cycle transitions the state machine to
`Idle` before scanning. -/
theorem C1_counterexample :
    (poll_repositories empty_github ok_persistence (base_config [repo1]) 0 10
        { active_issue := some expired_active
          processed_issues := ∅ }).1.active_issue = some expired_active ∧
    (poll_repositories empty_github ok_persistence (base_config [repo1]) 0 10
        { active_issue := some expired_active
          processed_issues := ∅ }).2.2 = .ok () :=
  ⟨rfl, rfl⟩

/-- C1 (amended): once a cycle observes `now ≥ expiry`, it proceeds
directly to the scan phase — the expired request no longer blocks
scanning — but `ActiveRequest` is not set to `None`: after the cycle it is
still the same `some a` unless a successful post overwrote it. -/
theorem C1_lazy_expiry_amended (G : GitHubClient) (P : Persistence)
    (cfg : Config) (pick now : Nat) (s : BotState) (a : ActiveIssue)
    (hs : s.active_issue = some a) (hexp : a.timeout ≤ now) :
    poll_repositories G P cfg pick now s = scan_phase G P cfg pick now s ∧
    ((poll_repositories G P cfg pick now s).1.active_issue = some a ∨
      ∃ e ∈ (poll_repositories G P cfg pick now s).2.1, e.success = true) := by
  refine ⟨poll_repositories_eq_scan_phase G P cfg pick now s a hs hexp, ?_⟩
  rcases poll_repositories_active_or_success G P cfg pick now s with h | h
  · exact Or.inl (by rw [h, hs])
  · exact Or.inr h

/-- C1 (witness): the amended theorem applied to the concrete expired
state used in the counterexample. -/
theorem C1_witness :
    ({ active_issue := some expired_active
       processed_issues := ∅ } : BotState).active_issue =
        some expired_active ∧
    expired_active.timeout ≤ 10 ∧
    (poll_repositories empty_github ok_persistence (base_config [repo1]) 0 10
        { active_issue := some expired_active, processed_issues := ∅ } =
      scan_phase empty_github ok_persistence (base_config [repo1]) 0 10
        { active_issue := some expired_active, processed_issues := ∅ } ∧
    ((poll_repositories empty_github ok_persistence (base_config [repo1]) 0 10
        { active_issue := some expired_active
          processed_issues := ∅ }).1.active_issue = some expired_active ∨
      ∃ e ∈ (poll_repositories empty_github ok_persistence
          (base_config [repo1]) 0 10
          { active_issue := some expired_active
            processed_issues := ∅ }).2.1, e.success = true)) :=
  ⟨rfl, by decide,
    C1_lazy_expiry_amended empty_github ok_persistence (base_config [repo1])
      0 10 _ expired_active rfl (by decide)⟩

/-- C9: the claim is right and the code is wrong.  After a successful
post, `mark_issue_as_active` mutates the in-memory state first and only
then persists; when `save_active_issue` fails the function returns `Err`
but the in-memory transition is kept (and never reverted or retried):
here the state after the failing call has `ActiveRequest` set and id 1 in
`ProcessedSet`, differing from the pre-transition state. -/
theorem C9_persistence_failure_keeps_transition :
    (mark_issue_as_active fail_save_persistence (base_config [repo1]) 0 "o"
        "r1" cx_issue1 initial_state).2 = .error () ∧
    (mark_issue_as_active fail_save_persistence (base_config [repo1]) 0 "o"
        "r1" cx_issue1 initial_state).1.active_issue =
      some (active_of (base_config [repo1]) 0 "o" "r1" cx_issue1) ∧
    1 ∈ (mark_issue_as_active fail_save_persistence (base_config [repo1]) 0
        "o" "r1" cx_issue1 initial_state).1.processed_issues ∧
    (mark_issue_as_active fail_save_persistence (base_config [repo1]) 0 "o"
        "r1" cx_issue1 initial_state).1 ≠ initial_state :=
  ⟨rfl, rfl, by decide, by decide⟩

/-- C10: `Bot::initialize` never fails — it returns `Ok(())` for every
behaviour of the two load operations — and on a load error the
corresponding field silently keeps its initial value (`None` active
request, empty processed set), while a successful load installs the
loaded value. -/
theorem C10_startup_load_never_fails (P : Persistence) :
    (bot_init P initial_state).2 = .ok () ∧
    (P.load_active_issue = .error () →
      (bot_init P initial_state).1.active_issue = none) ∧
    (∀ a, P.load_active_issue = .ok a →
      (bot_init P initial_state).1.active_issue = a) ∧
    (P.load_processed_issues = .error () →
      (bot_init P initial_state).1.processed_issues = ∅) ∧
    (∀ t, P.load_processed_issues = .ok t →
      (bot_init P initial_state).1.processed_issues = t) := by
  refine ⟨rfl, ?_, ?_, ?_, ?_⟩
  · intro h
    unfold bot_init
    rw [h]
    dsimp only
    split <;> rfl
  · intro a h
    unfold bot_init
    rw [h]
    dsimp only
    split <;> rfl
  · intro h
    unfold bot_init
    rw [h]
    dsimp only
    split <;> rfl
  · intro t h
    unfold bot_init
    rw [h]

/-- C10 (witness): with both loads failing, startup still returns `Ok`
and keeps the initial empty state. -/
theorem C10_witness :
    err_load_persistence.load_active_issue = .error () ∧
    err_load_persistence.load_processed_issues = .error () ∧
    (bot_init err_load_persistence initial_state).2 = .ok () ∧
    (bot_init err_load_persistence initial_state).1.active_issue = none ∧
    (bot_init err_load_persistence initial_state).1.processed_issues = ∅ :=
  ⟨rfl, rfl, (C10_startup_load_never_fails err_load_persistence).1,
    (C10_startup_load_never_fails err_load_persistence).2.1 rfl,
    (C10_startup_load_never_fails err_load_persistence).2.2.2.1 rfl⟩

/-- C6: the `FilePersistence` store round-trips: saving an `ActiveIssue`
or a processed set and loading it back returns exactly the saved value,
and on a fresh data directory (no files) loading returns `None` and the
empty set. -/
theorem C6_persistence_round_trip :
    (∀ (d : DataDir) (a : ActiveIssue),
      fp_load_active_issue (fp_save_active_issue a d) = .ok (some a)) ∧
    (∀ (d : DataDir) (t : Finset Nat),
      fp_load_processed_issues (fp_save_processed_issues t d) = .ok t) ∧
    fp_load_active_issue empty_data_dir = .ok none ∧
    fp_load_processed_issues empty_data_dir = .ok ∅ :=
  ⟨fun _ _ => rfl, fun _ _ => rfl, rfl, rfl⟩

/-- C2 (counterexample): with two configured repositories and a
persistence whose `save_active_issue` fails, one single cycle posts TWO
comments (both calls to `comment_on_issue` succeed): the post to issue 1
in `repo1` succeeds, `mark_issue_as_active` returns `Err` after already
setting the in-memory `ActiveRequest`, the poll loop treats that as a
per-repository error and continues to `repo2`, where it posts again —
and that second post happens while `ActiveRequest` is `Some`, not
`None`. -/
theorem C2_counterexample :
    successCount (poll_repositories two_repo_github fail_save_persistence
        (base_config [repo1, repo2]) 0 0 initial_state).2.1 = 2 ∧
    (poll_repositories two_repo_github fail_save_persistence
        (base_config [repo1, repo2]) 0 0 initial_state).2.1.map
        (fun e => (e.issue_id, e.success, e.active_at_post)) =
      [(1, true, none),
       (2, true, some (active_of (base_config [repo1, repo2]) 0 "o" "r1"
          cx_issue1))] :=
  ⟨rfl, rfl⟩

/-- C2 (amended): provided every persistence save succeeds, each cycle
posts at most one comment, and every post attempt of the cycle is made
while the in-memory `ActiveRequest` still holds its value from the start
of the cycle — which is `None` or an already-expired request.  (When a
save fails, the cycle may post once more in a later repository, as the
counterexample shows.) -/
theorem C2_single_post_amended (G : GitHubClient) (P : Persistence)
    (cfg : Config) (pick now : Nat) (s : BotState)
    (hA : ∀ a, P.save_active_issue a = .ok ())
    (hT : ∀ t, P.save_processed_issues t = .ok ()) :
    successCount (poll_repositories G P cfg pick now s).2.1 ≤ 1 ∧
    ∀ e ∈ (poll_repositories G P cfg pick now s).2.1,
      e.active_at_post = s.active_issue ∧
      (s.active_issue = none ∨
        ∃ a, s.active_issue = some a ∧ a.timeout ≤ now) := by
  unfold poll_repositories
  split
  · next a ha =>
    split
    · exact ⟨by simp [successCount], by intro e he; simp at he⟩
    · next hlt =>
      have h := scan_phase_saves_ok G P cfg pick now s hA hT
      exact ⟨h.1, fun e he => ⟨h.2 e he, Or.inr ⟨a, ha, by omega⟩⟩⟩
  · next ha =>
    have h := scan_phase_saves_ok G P cfg pick now s hA hT
    exact ⟨h.1, fun e he => ⟨h.2 e he, Or.inl ha⟩⟩

/-- C2 (witness): the amended theorem at a concrete all-saves-succeed
world: starting idle, the cycle posts exactly once. -/
theorem C2_witness :
    (∀ a, ok_persistence.save_active_issue a = .ok ()) ∧
    (∀ t, ok_persistence.save_processed_issues t = .ok ()) ∧
    (successCount (poll_repositories two_repo_github ok_persistence
        (base_config [repo1, repo2]) 0 0 initial_state).2.1 ≤ 1 ∧
      ∀ e ∈ (poll_repositories two_repo_github ok_persistence
          (base_config [repo1, repo2]) 0 0 initial_state).2.1,
        e.active_at_post = initial_state.active_issue ∧
        (initial_state.active_issue = none ∨
          ∃ a, initial_state.active_issue = some a ∧ a.timeout ≤ 0)) :=
  ⟨fun _ => rfl, fun _ => rfl,
    C2_single_post_amended two_repo_github ok_persistence
      (base_config [repo1, repo2]) 0 0 initial_state (fun _ => rfl)
      (fun _ => rfl)⟩

/-- C3: the processed set is monotone — no cycle operation ever removes
an identifier — and an identifier already in `ProcessedSet` is never
selected again (no post attempt ever targets it) in any later cycle, over
every sequence of cycles, every remote behaviour and every clock (so in
particular also after the cooldown of the original request expired). -/
theorem C3_processed_never_reselected (P : Persistence) (cfg : Config)
    (envs : List CycleEnv) (s : BotState) (i : Nat)
    (hi : i ∈ s.processed_issues) :
    s.processed_issues ⊆ (run_cycles P cfg envs s).1.processed_issues ∧
    ∀ e ∈ (run_cycles P cfg envs s).2, e.issue_id ≠ i := by
  refine ⟨run_cycles_mono P cfg envs s, fun e he hid => ?_⟩
  exact run_cycles_events_not_processed P cfg envs s e he (hid ▸ hi)

/-- C3 (witness): issue id 7 already processed; over a concrete cycle the
set keeps 7 and no post attempt targets 7. -/
theorem C3_witness :
    (7 : Nat) ∈ ({7} : Finset Nat) ∧
    (({7} : Finset Nat) ⊆
      (run_cycles ok_persistence (base_config [repo1, repo2])
        [{ github := three_issue_github, pick := 0, now := 0 }]
        { active_issue := none
          processed_issues := {7} }).1.processed_issues ∧
    ∀ e ∈ (run_cycles ok_persistence (base_config [repo1, repo2])
        [{ github := three_issue_github, pick := 0, now := 0 }]
        { active_issue := none, processed_issues := {7} }).2,
      e.issue_id ≠ 7) :=
  ⟨by decide,
    C3_processed_never_reselected ok_persistence (base_config [repo1, repo2])
      [{ github := three_issue_github, pick := 0, now := 0 }]
      { active_issue := none, processed_issues := {7} } 7 (by decide)⟩

/-- C8 (counterexample): in one cycle over one repository with two
eligible issues, the comment post on issue number 1 fails and the scan
does NOT skip the repository: it makes a further post attempt against the
same repository (issue number 2) in the same cycle, which succeeds —
contradicting the claim that on a comment-post failure the repository is
skipped with no further post attempts this cycle. -/
theorem C8_counterexample :
    (poll_repositories flaky_comment_github ok_persistence
        (base_config [repo1]) 0 0 initial_state).2.1.map
        (fun e => (e.repo_name, e.issue_number, e.success)) =
      [("r1", 1, false), ("r1", 2, true)] :=
  rfl

/-- C8 (amended): an issue-list failure is non-fatal and skips the whole
repository (state unchanged, no post attempts, the scan continues with
the next repository); a comment-post failure is also non-fatal but skips
only that issue — the scan continues with later issues of the same
repository, each fetched issue is attempted at most once (the attempted
ids form a subsequence of the sorted fetched list, so the failed post is
not retried within the cycle), and an id enters `ProcessedSet` only for
an issue whose post succeeded, so a failed issue can be re-attempted in a
later cycle. -/
theorem C8_failures_nonfatal_amended (G G1 : GitHubClient) (P : Persistence)
    (cfg : Config) (pick now : Nat) (repo repoX : Repository)
    (rest : List Repository) (s : BotState) (l : List Issue)
    (hfail : G1.get_open_issues repoX = .error ())
    (hok : G.get_open_issues repo = .ok l) :
    process_repository G1 P cfg pick now repoX s = (s, [], .error ()) ∧
    scan_repositories G1 P cfg pick now (repoX :: rest) s =
      scan_repositories G1 P cfg pick now rest s ∧
    List.Sublist
      ((process_repository G P cfg pick now repo s).2.1.map
        (fun e => e.issue_id))
      ((sort_issues l).map Issue.id) ∧
    (∀ i, i ∈ (process_repository G P cfg pick now repo s).1.processed_issues →
      i ∈ s.processed_issues ∨
      ∃ e ∈ (process_repository G P cfg pick now repo s).2.1,
        e.issue_id = i ∧ e.success = true) := by
  have h1 : process_repository G1 P cfg pick now repoX s = (s, [], .error ()) := by
    unfold process_repository
    rw [hfail]
  refine ⟨h1, ?_, ?_, ?_⟩
  · rw [scan_repositories]
    dsimp only
    rw [h1]
    dsimp only
    simp
  · unfold process_repository
    rw [hok]
    exact try_issues_trace_sublist G P cfg pick now repo.owner repo.repo
      s.processed_issues _ s
  · exact process_repository_processed_subset G P cfg pick now repo s

/-- C8 (witness): the amended theorem at a concrete world — a remote
whose listing fails everywhere, and a remote listing two issues. -/
theorem C8_witness :
    list_fail_github.get_open_issues repo1 = .error () ∧
    flaky_comment_github.get_open_issues repo1 = .ok [cx_issue1, cx_issue2] ∧
    (process_repository list_fail_github ok_persistence (base_config [repo1])
        0 0 repo1 initial_state = (initial_state, [], .error ()) ∧
    scan_repositories list_fail_github ok_persistence (base_config [repo1])
        0 0 [repo1, repo2] initial_state =
      scan_repositories list_fail_github ok_persistence (base_config [repo1])
        0 0 [repo2] initial_state ∧
    List.Sublist
      ((process_repository flaky_comment_github ok_persistence
          (base_config [repo1]) 0 0 repo1 initial_state).2.1.map
        (fun e => e.issue_id))
      ((sort_issues [cx_issue1, cx_issue2]).map Issue.id) ∧
    (∀ i, i ∈ (process_repository flaky_comment_github ok_persistence
          (base_config [repo1]) 0 0 repo1 initial_state).1.processed_issues →
      i ∈ initial_state.processed_issues ∨
      ∃ e ∈ (process_repository flaky_comment_github ok_persistence
          (base_config [repo1]) 0 0 repo1 initial_state).2.1,
        e.issue_id = i ∧ e.success = true)) :=
  ⟨rfl, rfl,
    C8_failures_nonfatal_amended flaky_comment_github list_fail_github
      ok_persistence (base_config [repo1]) 0 0 repo1 repo1 [repo2]
      initial_state [cx_issue1, cx_issue2] rfl rfl⟩

/-- C4: every issue returned by `get_open_issues` survived the filter, so
an issue with an assignee (or a non-empty assignee list) is never
selected, an issue lacking one of the required labels of the rule is never
selected, and an issue carrying one of the excluded labels of the rule is
never selected — stated contrapositively: membership in the filtered
result implies no assignee, an empty assignee list, all required labels
present, and no excluded label present. -/
theorem C4_filter_rejections (compile : String → Option (String → Bool))
    (resp : Except Unit (List Issue)) (repo : Repository)
    (issues : List Issue) (issue : Issue)
    (hok : octocrab_get_open_issues compile resp repo = .ok issues)
    (hmem : issue ∈ issues) :
    issue.assignee = none ∧ issue.assignees = [] ∧
    (∀ req ∈ repo.labels, req ∈ issue_label_names issue) ∧
    (∀ ex ∈ repo.exclude_labels, ex ∉ issue_label_names issue) := by
  rcases resp with u | l
  · simp [octocrab_get_open_issues] at hok
  · simp only [octocrab_get_open_issues, Except.ok.injEq] at hok
    subst hok
    obtain ⟨hl, hpred⟩ := List.mem_filter.1 hmem
    rw [issue_passes_filter] at hpred
    split at hpred
    · simp at hpred
    · next h1 =>
      split at hpred
      · simp at hpred
      · next h2 =>
        split at hpred
        · simp at hpred
        · next h3 =>
          simp at h1 h2 h3
          refine ⟨h1.1, h1.2, ?_, ?_⟩
          · intro req hreq
            rcases eq_or_ne repo.labels [] with he | he
            · rw [he] at hreq; simp at hreq
            · exact h2 he req hreq
          · intro ex hex
            rcases eq_or_ne repo.exclude_labels [] with he | he
            · rw [he] at hex; simp at hex
            · exact h3 he ex hex

/-- C4 (witness): a rule requiring "help wanted" and excluding "blocked",
applied to an unassigned issue carrying exactly "help wanted". -/
theorem C4_witness :
    octocrab_get_open_issues (fun _ => none) (.ok [labeled_issue])
        label_repo = .ok [labeled_issue] ∧
    labeled_issue ∈ [labeled_issue] ∧
    (labeled_issue.assignee = none ∧ labeled_issue.assignees = [] ∧
      (∀ req ∈ label_repo.labels, req ∈ issue_label_names labeled_issue) ∧
      (∀ ex ∈ label_repo.exclude_labels,
        ex ∉ issue_label_names labeled_issue)) :=
  ⟨rfl, by simp,
    C4_filter_rejections (fun _ => none) (.ok [labeled_issue]) label_repo
      [labeled_issue] labeled_issue rfl (by simp)⟩

/-- C7: when the rule has a title pattern that fails to compile, the
filter behaves exactly as if the rule had no title pattern at all (the
step is not applied and no candidate is rejected by it, and no error is
raised since the filter is a total function); when the pattern compiles,
an issue passes the filter only if its title matches. -/
theorem C7_bad_regex_tolerated (compile : String → Option (String → Bool))
    (repo : Repository) (issue : Issue) (pat : String)
    (hpat : repo.title_regex = some pat) :
    (compile pat = none →
      issue_passes_filter compile repo issue =
        issue_passes_filter compile { repo with title_regex := none } issue) ∧
    (∀ m, compile pat = some m →
      (issue_passes_filter compile repo issue = true → m issue.title = true)) := by
  constructor
  · intro hc
    rw [issue_passes_filter, issue_passes_filter]
    simp only [hpat, hc]
  · intro m hm htrue
    rw [issue_passes_filter] at htrue
    split at htrue
    · simp at htrue
    · split at htrue
      · simp at htrue
      · split at htrue
        · simp at htrue
        · simp only [hpat, hm] at htrue
          exact htrue

/-- C7 (witness): the malformed pattern "(" (which the regex compiler
rejects) leaves the filter acting as if no pattern were configured. -/
theorem C7_witness :
    regex_repo.title_regex = some "(" ∧
    (((fun _ => (none : Option (String → Bool))) "(" = none →
      issue_passes_filter (fun _ => none) regex_repo cx_issue1 =
        issue_passes_filter (fun _ => none)
          { regex_repo with title_regex := none } cx_issue1) ∧
    (∀ m, (fun _ => (none : Option (String → Bool))) "(" = some m →
      (issue_passes_filter (fun _ => none) regex_repo cx_issue1 = true →
        m cx_issue1.title = true))) :=
  ⟨rfl,
    C7_bad_regex_tolerated (fun _ => none) regex_repo cx_issue1 "(" rfl⟩

/-- A list that is a permutation of three issues with strictly increasing
creation times and is sorted by `created_le` must be exactly the
creation-ordered list. -/
theorem sorted_perm_three (i1 i2 i3 : Issue) (m : List Issue)
    (hm : m.Perm [i1, i2, i3]) (hs : m.Sorted created_le)
    (h12 : i1.created_at < i2.created_at)
    (h23 : i2.created_at < i3.created_at) :
    m = [i1, i2, i3] := by
  have hlen : m.length = 3 := by rw [hm.length_eq]; rfl
  rcases m with _ | ⟨a, m⟩
  · exact absurd hlen (by simp)
  rcases m with _ | ⟨b, m⟩
  · exact absurd hlen (by simp)
  rcases m with _ | ⟨c, m⟩
  · exact absurd hlen (by simp)
  rcases m with _ | ⟨d, m⟩
  · have hab : created_le a b := (List.sorted_cons.1 hs).1 b (by simp)
    have hac : created_le a c := (List.sorted_cons.1 hs).1 c (by simp)
    have hbc : created_le b c :=
      (List.sorted_cons.1 (List.sorted_cons.1 hs).2).1 c (by simp)
    simp only [created_le] at hab hac hbc
    have ha : a = i1 ∨ a = i2 ∨ a = i3 := by
      simpa using hm.subset (show a ∈ [a, b, c] by simp)
    have hi1 : i1 = a ∨ i1 = b ∨ i1 = c := by
      simpa using hm.symm.subset (show i1 ∈ [i1, i2, i3] by simp)
    rcases ha with rfl | rfl | rfl
    · have hp2 : [b, c].Perm [i2, i3] := hm.cons_inv
      have hb : b = i2 ∨ b = i3 := by
        simpa using hp2.subset (show b ∈ [b, c] by simp)
      rcases hb with rfl | rfl
      · have hc : c = i3 := by
          simpa using hp2.cons_inv.subset (show c ∈ [c] by simp)
        rw [hc]
      · exfalso
        have hi2 : i2 = b ∨ i2 = c := by
          simpa using hp2.symm.subset (show i2 ∈ [i2, b] by simp)
        rcases hi2 with h | h
        · rw [h] at h23; omega
        · rw [← h] at hbc; omega
    · exfalso
      rcases hi1 with h | h | h
      · rw [h] at h12; omega
      · rw [← h] at hab; omega
      · rw [← h] at hac; omega
    · exfalso
      rcases hi1 with h | h | h
      · rw [h] at h12; omega
      · rw [← h] at hab; omega
      · rw [← h] at hac; omega
  · exact absurd hlen (by simp)

/-- The stable sort of `process_repository` puts three otherwise-equal
issues with strictly increasing creation times into creation order. -/
theorem sort_issues_three (i1 i2 i3 : Issue) (l : List Issue)
    (hperm : l.Perm [i1, i2, i3])
    (h12 : i1.created_at < i2.created_at)
    (h23 : i2.created_at < i3.created_at) :
    sort_issues l = [i1, i2, i3] :=
  sorted_perm_three i1 i2 i3 (sort_issues l)
    ((List.perm_insertionSort created_le l).trans hperm)
    (List.sorted_insertionSort created_le l) h12 h23

/-- C5: a fetched list that is any permutation of three eligible issues
with creation timestamps T1 < T2 < T3 is ordered T1, T2, T3 by the sort,
and the repository scan selects only the head of that ordering: its single
post attempt targets the oldest issue and the scan reports success
(ending the cycle for this repository). -/
theorem C5_oldest_first_selection (i1 i2 i3 : Issue) (l : List Issue)
    (G : GitHubClient) (P : Persistence) (cfg : Config) (pick now : Nat)
    (repo : Repository) (s : BotState)
    (hperm : l.Perm [i1, i2, i3])
    (h12 : i1.created_at < i2.created_at)
    (h23 : i2.created_at < i3.created_at)
    (hok : G.get_open_issues repo = .ok l)
    (hnp : i1.id ∉ s.processed_issues)
    (hpost : request_assignment G cfg pick repo.owner repo.repo i1 = .ok ())
    (hA : ∀ a, P.save_active_issue a = .ok ())
    (hT : ∀ t, P.save_processed_issues t = .ok ()) :
    sort_issues l = [i1, i2, i3] ∧
    (process_repository G P cfg pick now repo s).2.1.map
      (fun e => e.issue_id) = [i1.id] ∧
    (process_repository G P cfg pick now repo s).2.2 = .ok true := by
  have hsort := sort_issues_three i1 i2 i3 l hperm h12 h23
  have hrun : process_repository G P cfg pick now repo s =
      ({ active_issue := some (active_of cfg now repo.owner repo.repo i1)
         processed_issues := insert i1.id s.processed_issues },
       [{ owner := repo.owner, repo_name := repo.repo, issue_id := i1.id
          issue_number := i1.number, active_at_post := s.active_issue
          success := true }], .ok true) := by
    unfold process_repository
    simp only [hok]
    rw [hsort, try_issues]
    simp only [if_neg hnp, hpost,
      mark_issue_as_active_saves_ok P cfg now repo.owner repo.repo i1 s hA hT]
  exact ⟨hsort, by rw [hrun]; rfl, by rw [hrun]⟩

/-- C5 (witness): the three sample issues fetched out of order are sorted
into creation order and only the oldest (id 1) is posted on. -/
theorem C5_witness :
    ([cx_issue2, cx_issue3, cx_issue1].Perm
      [cx_issue1, cx_issue2, cx_issue3]) ∧
    cx_issue1.created_at < cx_issue2.created_at ∧
    cx_issue2.created_at < cx_issue3.created_at ∧
    cx_issue1.id ∉ initial_state.processed_issues ∧
    (sort_issues [cx_issue2, cx_issue3, cx_issue1] =
        [cx_issue1, cx_issue2, cx_issue3] ∧
      (process_repository shuffled_github ok_persistence
          (base_config [repo1]) 0 0 repo1 initial_state).2.1.map
        (fun e => e.issue_id) = [cx_issue1.id] ∧
      (process_repository shuffled_github ok_persistence
          (base_config [repo1]) 0 0 repo1 initial_state).2.2 = .ok true) :=
  ⟨by decide, by decide, by decide, by decide,
    C5_oldest_first_selection cx_issue1 cx_issue2 cx_issue3
      [cx_issue2, cx_issue3, cx_issue1] shuffled_github ok_persistence
      (base_config [repo1]) 0 0 repo1 initial_state (by decide) (by decide)
      (by decide) rfl (by decide) rfl (fun _ => rfl) (fun _ => rfl)⟩
